import Mathlib

/-!
Verification of the MySQL connector / federated-join module
(`mindsdb/integrations/mysql_handler/mysql_handler/mysql_handler.py`).

The Python class `MySQLHandler` is shallowly embedded here.  Side effects
(connecting, executing SQL, fetching, committing) are modelled by an
environment record holding each effect's outcome (`Except String _`), and
each operation returns the list of effect events it performed together
with its result, so that call order and error propagation are visible in
the theorems.  Pandas dataframes are modelled by an explicit column list
and row matrix, and `DataFrame.join` is modelled with pandas' documented
semantics: the caller's `on` columns are matched against the *index* of
the other frame (a `RangeIndex` for frames built by `from_records`), with
`lsuffix`/`rsuffix` applied to overlapping column names and a left join
by default.
-/

namespace MySQLHandler

/-- A Python runtime value, as far as the handler's configuration needs:
the `ssl` kwarg may be a bool, a string, an int, or absent (`None`). -/
inductive PyVal where
  | bool (b : Bool)
  | str (s : String)
  | int (n : Int)
  | none
deriving DecidableEq, Repr

/-- Python's `x is True`: identity with the boolean `True` object.  Truthy
values such as `"true"` or `1` are not `True`. -/
def pyIsTrue : PyVal → Bool
  | .bool true => true
  | _ => false

/-- The constructor kwargs of `MySQLHandler.__init__` that the claims
use: host/port/user/password/database plus the ssl material. -/
structure HandlerCfg where
  host : String
  port : String
  user : String
  password : String
  database : String
  ssl : PyVal
  ssl_ca : Option String
  ssl_cert : Option String
  ssl_key : Option String
deriving DecidableEq, Repr

/-- The `config` dict built by `MySQLHandler.connect` and passed to
`mysql.connector.connect`.  `client_flags_ssl` records whether
`config['client_flags'] = [ClientFlag.SSL]` was set; an `Option` field is
`some` exactly when the corresponding key was put into the dict. -/
structure ConnParams where
  host : String
  port : String
  user : String
  password : String
  client_flags_ssl : Bool
  ssl_ca : Option String
  ssl_cert : Option String
  ssl_key : Option String
deriving DecidableEq, Repr

/-- `MySQLHandler.connect`, lines 31-48: the dict starts from
host/port/user/password; only under `if self.ssl is True` is the SSL
client flag set and each of ca/cert/key attached when not `None`. -/
def connect_params (c : HandlerCfg) : ConnParams :=
  if pyIsTrue c.ssl then
    { host := c.host, port := c.port, user := c.user, password := c.password
      client_flags_ssl := true
      ssl_ca := c.ssl_ca, ssl_cert := c.ssl_cert, ssl_key := c.ssl_key }
  else
    { host := c.host, port := c.port, user := c.user, password := c.password
      client_flags_ssl := false
      ssl_ca := Option.none, ssl_cert := Option.none, ssl_key := Option.none }

/-- The SQLAlchemy URL built by `MySQLHandler.select_into`, line 102:
`f'mysql://{self.host}:{self.port}/{self.database}'`. -/
def select_into_url (c : HandlerCfg) : String :=
  "mysql://" ++ c.host ++ ":" ++ c.port ++ "/" ++ c.database

/-- A `try/except Exception` block that runs a handler on any error. -/
def tryExcept {α : Type} (body : Except String α) (h : String → Except String α) :
    Except String α :=
  match body with
  | .ok a => .ok a
  | .error e => h e

/-- `MySQLHandler.check_status`, lines 50-57, as the Python runtime sees
it: the probe (`closing(self.connection)` + `con.is_connected()`) either
yields a liveness bool or raises; the `except Exception` arm substitutes
`False`.  The result is what `return connected` produces. -/
def check_status (probe : Except String Bool) : Except String Bool :=
  tryExcept probe (fun _ => .ok false)

/-- The boolean a caller of `check_status` observes. -/
def check_status_b (probe : Except String Bool) : Bool :=
  match probe with
  | .ok b => b
  | .error _ => false

/-- A cell value in a fetched row / dataframe.  `nan` is pandas' missing
value, introduced by an unmatched left join. -/
inductive Value where
  | int (n : Int)
  | str (s : String)
  | nan
deriving DecidableEq, Repr

/-- A row as returned by `cursor(dictionary=True)`: column name to value. -/
def PyRow : Type := List (String × Value)

instance : DecidableEq PyRow := by
  unfold PyRow
  infer_instance

/-- The observable effects of one `run_native_query` call, in order. -/
inductive Event where
  | probe
  | connectCall
  | useDb (db : String)
  | execute (q : String)
  | fetch
  | commit
deriving DecidableEq, Repr

/-- Outcomes of the side-effecting steps a single `run_native_query` call
can perform: the `is_connected` probe, `self.connect()`, `USE db`,
`cur.execute(query_str)`, `cur.fetchall()` and `con.commit()`. -/
structure QueryEnv where
  probe : Except String Bool
  connectRes : Except String Unit
  useDbRes : Except String Unit
  execRes : Except String Unit
  fetchRes : Except String (List PyRow)
  commitRes : Except String Unit

/-- What `run_native_query` returns on success: either the fetched rows,
or the `res = True` flag kept when `fetchall` raised. -/
inductive QueryResult where
  | rows (rs : List PyRow)
  | success
deriving DecidableEq

/-- Line 74: `raise Exception(f"Error: {e}. Please check and retry!")`. -/
def wrapError (m : String) : String :=
  "Error: " ++ m ++ ". Please check and retry!"

/-- The `try:` block of `run_native_query`, lines 62-74: `USE db`,
execute, `res = True`, fetch (its failure silently kept as the flag),
commit; any exception in the block is re-raised wrapped by `wrapError`. -/
def queryBody (env : QueryEnv) (db q : String) :
    List Event × Except String QueryResult :=
  match env.useDbRes with
  | .error m => ([.useDb db], .error (wrapError m))
  | .ok _ =>
    match env.execRes with
    | .error m => ([.useDb db, .execute q], .error (wrapError m))
    | .ok _ =>
      let res :=
        match env.fetchRes with
        | .error _ => QueryResult.success
        | .ok rs => QueryResult.rows rs
      match env.commitRes with
      | .error m => ([.useDb db, .execute q, .fetch, .commit], .error (wrapError m))
      | .ok _ => ([.useDb db, .execute q, .fetch, .commit], .ok res)

/-- `MySQLHandler.run_native_query`, lines 59-75.  The reconnect guard
`if not self.check_status(): self.connect()` runs *before* the `try:`,
so a failing `connect` propagates its own error unwrapped. -/
def run_native_query (env : QueryEnv) (db q : String) :
    List Event × Except String QueryResult :=
  if check_status_b env.probe then
    let r := queryBody env db q
    (Event.probe :: r.1, r.2)
  else
    match env.connectRes with
    | .error m => ([.probe, .connectCall], .error m)
    | .ok _ =>
      let r := queryBody env db q
      (Event.probe :: Event.connectCall :: r.1, r.2)

/-- The SQL text built by `MySQLHandler.select_query`, lines 92-98:
targets' string forms joined by `,`, the last path segment of the from
reference as table name, and a WHERE clause only when a predicate is
supplied (Python truthiness of the AST node: present iff not None). -/
def buildSelect (targets : List String) (fromParts : List String)
    (whereStmt : Option String) : String :=
  let base := "SELECT " ++ String.intercalate "," targets
      ++ " FROM " ++ fromParts.getLastD ""
  match whereStmt with
  | some w => base ++ " WHERE " ++ w
  | Option.none => base

/-- `MySQLHandler.select_query`: builds the statement and delegates it to
`run_native_query`. -/
def select_query (env : QueryEnv) (db : String) (targets : List String)
    (fromParts : List String) (whereStmt : Option String) :
    List Event × Except String QueryResult :=
  run_native_query env db (buildSelect targets fromParts whereStmt)

/-- A pandas dataframe as the handler uses it: named columns and a row
matrix (each row positionally aligned with `cols`).  Frames built by
`DataFrame.from_records` carry the default `RangeIndex` 0,1,2,…, so a
row's index label is its position in `rows`. -/
structure DataFrame where
  cols : List String
  rows : List (List Value)
deriving DecidableEq, Repr

/-- Insert a column name if not already present (keeps first-seen order). -/
def insertCol (cs : List String) (c : String) : List String :=
  if c ∈ cs then cs else cs ++ [c]

/-- Column order of `pd.DataFrame.from_records` on a list of dicts: union
of the keys in order of first appearance. -/
def recordCols (rs : List PyRow) : List String :=
  rs.foldl (fun acc r => r.foldl (fun a kv => insertCol a kv.1) acc) []

/-- A record's value in a column, `nan` when the key is absent. -/
def lookupVal (r : PyRow) (c : String) : Value :=
  match List.lookup c r with
  | some v => v
  | Option.none => Value.nan

/-- `pd.DataFrame.from_records` on a list of dict rows. -/
def from_records (rs : List PyRow) : DataFrame :=
  let cs := recordCols rs
  ⟨cs, rs.map (fun r => cs.map (fun c => lookupVal r c))⟩

/-- Position of a column name in a column list. -/
def colIdx : List String → String → Option Nat
  | [], _ => Option.none
  | c :: cs, k => if c = k then some 0 else (colIdx cs k).map (· + 1)

/-- The value a positionally-stored row holds in a named column. -/
def rowVal (cols : List String) (row : List Value) (c : String) : Value :=
  match colIdx cols c with
  | some i => row.getD i Value.nan
  | Option.none => Value.nan

/-- An all-`nan` row over the given columns (the unmatched side of a
pandas left join). -/
def nanRow (cols : List String) : List Value :=
  cols.map (fun _ => Value.nan)

/-- `left.join(right, on=on, lsuffix=ls, rsuffix=rs)` with pandas'
semantics (pandas `DataFrame.join` documentation: `on` names columns *in
the caller* "to join on the index in `other`").  It delegates to
`merge(left, right, left_on=on, right_index=True, how='left',
suffixes=(ls, rs))`:
* a `ValueError` if the number of `on` columns differs from the number of
  index levels of `right` (one, for a `from_records` frame);
* a `KeyError` if an `on` column is missing from the caller;
* overlapping column names on *both* sides get their suffix;
* each left row keeps its values and is extended with the right row whose
  `RangeIndex` label equals the left row's key value, or with `NaN`s when
  no such label exists (left join). -/
def pandas_join (ldf rdf : DataFrame) (onCols : List String) (ls rs : String) :
    Except String DataFrame :=
  match onCols with
  | [k] =>
    if k ∈ ldf.cols then
      let lcols := ldf.cols.map (fun c => if c ∈ rdf.cols then c ++ ls else c)
      let rcols := rdf.cols.map (fun c => if c ∈ ldf.cols then c ++ rs else c)
      let newRows := ldf.rows.map (fun lrow =>
        let rrow :=
          match rowVal ldf.cols lrow k with
          | Value.int n =>
            if n < 0 then nanRow rdf.cols
            else
              match rdf.rows.get? n.toNat with
              | some rr => rr
              | Option.none => nanRow rdf.cols
          | _ => nanRow rdf.cols
        lrow ++ rrow)
      .ok ⟨lcols ++ rcols, newRows⟩
    else .error ("KeyError: " ++ k)
  | _ => .error "len(left_on) must equal the number of levels in the index of right"

/-- The parsed join statement `MySQLHandler.join` consumes: target
columns (string forms), the left and right sides of the from-expression
(path segments), and the shared predicate. -/
structure JoinStmt where
  targets : List String
  fromLeft : List String
  fromRight : List String
  whereStmt : Option String
deriving DecidableEq, Repr

/-- The calls `join` makes on its connectors, in order. -/
inductive JoinEvent where
  | selectLeft (targets : List String) (tbl : List String) (w : Option String)
  | selectRight (targets : List String) (tbl : List String) (w : Option String)
  | selectInto (tbl : String) (df : DataFrame)
deriving DecidableEq, Repr

/-- `MySQLHandler.join`, lines 109-119: select on `self` with the left
side of the from-expression, select on `data_handler` with the right
side, both sharing targets and predicate; materialize both with
`from_records`; merge with `DataFrame.join(on=targets, lsuffix='_left',
rsuffix='_right')`; `select_into` on `self` only when `into` is supplied;
return the merged frame.  The connectors' `select_query` results are
supplied as functions of (targets, table, predicate). -/
def join (leftSel rightSel : List String → List String → Option String → List PyRow)
    (stmt : JoinStmt) (into : Option String) :
    List JoinEvent × Except String DataFrame :=
  let lr := leftSel stmt.targets stmt.fromLeft stmt.whereStmt
  let rr := rightSel stmt.targets stmt.fromRight stmt.whereStmt
  let sels := [JoinEvent.selectLeft stmt.targets stmt.fromLeft stmt.whereStmt,
               JoinEvent.selectRight stmt.targets stmt.fromRight stmt.whereStmt]
  match pandas_join (from_records lr) (from_records rr) stmt.targets "_left" "_right" with
  | .error m => (sels, .error m)
  | .ok df =>
    match into with
    | some t => (sels ++ [JoinEvent.selectInto t df], .ok df)
    | Option.none => (sels, .ok df)

/-! ### Helper lemmas -/

/-- `parts[-1]` on a nonempty list is the last element. -/
theorem getLastD_eq_getLast (l : List String) (h : l ≠ []) :
    l.getLastD "" = l.getLast h := by
  cases l with
  | nil => exact absurd rfl h
  | cons a t => rfl

/-- The `try:` body of `run_native_query` never calls `connect`. -/
theorem queryBody_no_connect (env : QueryEnv) (db q : String) :
    (queryBody env db q).1.count Event.connectCall = 0 := by
  unfold queryBody
  cases env.useDbRes <;> cases env.execRes <;> cases env.commitRes <;>
    simp [List.count_cons]

/-! ### Claim theorems -/

/-- Claim C8: `checkStatus` always returns a boolean and never raises:
whatever the probe of the connection handle does, `check_status` yields
`ok` of a boolean, and any probe exception is caught and turned into
`false`. -/
theorem check_status_never_raises (probe : Except String Bool) :
    (∃ b, check_status probe = Except.ok b) ∧
    (∀ m, probe = Except.error m → check_status probe = Except.ok false) := by
  cases probe <;> simp [check_status, tryExcept]

/-- Witness for C8 at a raising probe. -/
theorem check_status_never_raises_witness :
    check_status (Except.error "Lost connection to MySQL server") = Except.ok false :=
  (check_status_never_raises (Except.error "Lost connection to MySQL server")).2
    "Lost connection to MySQL server" rfl

/-- Claim C7: `connect` builds the connection parameters from host, port,
user and password; each of the ca/cert/key paths is attached iff TLS is
requested (`ssl is True`) and that path is present; when TLS is not
requested, no SSL client flag and no TLS material is attached. -/
theorem connect_params_spec (c : HandlerCfg) :
    (connect_params c).host = c.host ∧ (connect_params c).port = c.port ∧
    (connect_params c).user = c.user ∧ (connect_params c).password = c.password ∧
    ((connect_params c).client_flags_ssl = true ↔ pyIsTrue c.ssl = true) ∧
    (∀ p, (connect_params c).ssl_ca = some p ↔
      (pyIsTrue c.ssl = true ∧ c.ssl_ca = some p)) ∧
    (∀ p, (connect_params c).ssl_cert = some p ↔
      (pyIsTrue c.ssl = true ∧ c.ssl_cert = some p)) ∧
    (∀ p, (connect_params c).ssl_key = some p ↔
      (pyIsTrue c.ssl = true ∧ c.ssl_key = some p)) ∧
    (pyIsTrue c.ssl = false →
      (connect_params c).client_flags_ssl = false ∧
      (connect_params c).ssl_ca = Option.none ∧
      (connect_params c).ssl_cert = Option.none ∧
      (connect_params c).ssl_key = Option.none) := by
  by_cases h : pyIsTrue c.ssl <;> simp [connect_params, h]

/-- A TLS-requesting configuration with a ca and a key but no cert. -/
def cfgTLS : HandlerCfg :=
  ⟨"localhost", "3306", "root", "root", "test", PyVal.bool true,
    some "/etc/ca.pem", Option.none, some "/etc/key.pem"⟩

/-- Witness for C7: on `cfgTLS` the ca path is attached and the cert slot
stays empty. -/
theorem connect_params_spec_witness :
    (connect_params cfgTLS).ssl_ca = some "/etc/ca.pem" ∧
    ¬ (connect_params cfgTLS).ssl_cert = some "/etc/cert.pem" := by
  have h := connect_params_spec cfgTLS
  exact ⟨(h.2.2.2.2.2.1 "/etc/ca.pem").mpr ⟨rfl, rfl⟩,
    fun hc => by simpa [cfgTLS] using ((h.2.2.2.2.2.2.1 "/etc/cert.pem").mp hc).2⟩

/-- Claim C10: `connect` enables TLS only when `ssl` is identically the
boolean `True`; for any other value — including truthy non-booleans such
as the string form of true or the integer one — no SSL client flag and no
ca/cert/key material is attached, even when the paths are supplied. -/
theorem connect_params_ssl_identity (c : HandlerCfg) (h : c.ssl ≠ PyVal.bool true) :
    (connect_params c).client_flags_ssl = false ∧
    (connect_params c).ssl_ca = Option.none ∧
    (connect_params c).ssl_cert = Option.none ∧
    (connect_params c).ssl_key = Option.none := by
  have hb : pyIsTrue c.ssl = false := by
    cases hc : c.ssl with
    | bool b => cases b with
      | true => exact absurd hc h
      | false => rfl
    | _ => rfl
  simp [connect_params, hb]

/-- A configuration whose ssl value is the truthy string form of true,
with every TLS path supplied. -/
def cfgStrTrue : HandlerCfg :=
  ⟨"localhost", "3306", "root", "root", "test", PyVal.str "true",
    some "/etc/ca.pem", some "/etc/cert.pem", some "/etc/key.pem"⟩

/-- Witness for C10 at `cfgStrTrue`. -/
theorem connect_params_ssl_identity_witness :
    (connect_params cfgStrTrue).client_flags_ssl = false ∧
    (connect_params cfgStrTrue).ssl_ca = Option.none ∧
    (connect_params cfgStrTrue).ssl_cert = Option.none ∧
    (connect_params cfgStrTrue).ssl_key = Option.none :=
  connect_params_ssl_identity cfgStrTrue (by decide)

/-- Claim C9: the engine URL `select_into` builds depends only on host,
port and database: two configurations agreeing there give the same URL
whatever their user, password and TLS settings. -/
theorem select_into_url_ignores_credentials (c1 c2 : HandlerCfg)
    (hh : c1.host = c2.host) (hp : c1.port = c2.port)
    (hd : c1.database = c2.database) :
    select_into_url c1 = select_into_url c2 := by
  simp [select_into_url, hh, hp, hd]

/-- Witness for C9: `cfgTLS` and `cfgStrTrue` differ in their ssl
material yet produce the same persistence URL. -/
theorem select_into_url_ignores_credentials_witness :
    select_into_url cfgTLS = select_into_url cfgStrTrue ∧ cfgTLS ≠ cfgStrTrue :=
  ⟨select_into_url_ignores_credentials cfgTLS cfgStrTrue rfl rfl rfl, by decide⟩

/-- An environment where the liveness probe reports not-alive and the
automatic reconnect fails with an access-denied error. -/
def envDenied : QueryEnv :=
  ⟨Except.ok false, Except.error "Access denied for user", Except.ok (),
    Except.ok (), Except.ok [], Except.ok ()⟩

/-- Counterexample to C2 as stated: when the probe reports not-alive and
`connect` fails, `run_native_query` propagates the connect error raw —
not wrapped the way execution failures are wrapped. -/
theorem run_native_query_connect_error_unwrapped :
    (run_native_query envDenied "test" "SELECT 1").2
      = Except.error "Access denied for user" ∧
    (run_native_query envDenied "test" "SELECT 1").2
      ≠ Except.error (wrapError "Access denied for user") := by
  refine ⟨rfl, fun hcontra => ?_⟩
  rw [show (run_native_query envDenied "test" "SELECT 1").2
        = Except.error "Access denied for user" from rfl] at hcontra
  simp only [Except.error.injEq] at hcontra
  exact absurd hcontra (by decide)

/-- Claim C2 (amended): `run_native_query` probes first and calls
`connect` exactly when the probe reports not-alive, with no further retry
(zero or one connect call); a failing reconnect propagates to the caller
as the connect error itself, unwrapped. -/
theorem run_native_query_reconnect (env : QueryEnv) (db q : String) :
    ((run_native_query env db q).1.head? = some Event.probe) ∧
    ((run_native_query env db q).1.count Event.connectCall
      = if check_status_b env.probe then 0 else 1) ∧
    (∀ m, check_status_b env.probe = false → env.connectRes = Except.error m →
      (run_native_query env db q).2 = Except.error m) := by
  unfold run_native_query
  by_cases h : check_status_b env.probe
  · simp [h, queryBody_no_connect, List.count_cons]
  · simp only [h, Bool.false_eq_true, if_false]
    cases hc : env.connectRes with
    | error m => simp [List.count_cons]
    | ok u =>
      refine ⟨rfl, ?_, ?_⟩
      · simpa [List.count_cons] using queryBody_no_connect env db q
      · intro m _ hm
        cases hm

/-- Witness for C2 (amended) on `envDenied`. -/
theorem run_native_query_reconnect_witness :
    (run_native_query envDenied "test" "SELECT 1").1.count Event.connectCall = 1 ∧
    (run_native_query envDenied "test" "SELECT 1").2
      = Except.error "Access denied for user" := by
  have h := run_native_query_reconnect envDenied "test" "SELECT 1"
  exact ⟨by simpa using h.2.1, h.2.2 "Access denied for user" rfl rfl⟩

/-- Claim C3: on a valid statement producing no result set (execute and
commit succeed, `fetchall` raises), `run_native_query` returns the
success flag and does not raise: the failed fetch is caught and the
`res = True` marker survives. -/
theorem run_native_query_ddl_success (env : QueryEnv) (db q m : String)
    (hp : check_status_b env.probe = true ∨ env.connectRes = Except.ok ())
    (hu : env.useDbRes = Except.ok ()) (he : env.execRes = Except.ok ())
    (hf : env.fetchRes = Except.error m) (hc : env.commitRes = Except.ok ()) :
    (run_native_query env db q).2 = Except.ok QueryResult.success := by
  have hb : (queryBody env db q).2 = Except.ok QueryResult.success := by
    unfold queryBody
    rw [hu, he, hf, hc]
  unfold run_native_query
  rcases hp with hp | hp
  · simp [hp, hb]
  · by_cases hcs : check_status_b env.probe <;> simp [hcs, hp, hb]

/-- An environment for a DDL statement: alive connection, execute and
commit succeed, `fetchall` raises the no-result-set error. -/
def envDDL : QueryEnv :=
  ⟨Except.ok true, Except.ok (), Except.ok (), Except.ok (),
    Except.error "No result set to fetch from", Except.ok ()⟩

/-- Witness for C3 on `envDDL`. -/
theorem run_native_query_ddl_success_witness :
    (run_native_query envDDL "test" "CREATE TABLE t (c INT)").2
      = Except.ok QueryResult.success :=
  run_native_query_ddl_success envDDL "test" "CREATE TABLE t (c INT)"
    "No result set to fetch from" (Or.inl rfl) rfl rfl rfl rfl

/-- Claim C6: when execution fails after a connection exists, the caller
receives the error wrapped around the underlying engine message (which
occurs verbatim inside the wrapper), and the handler can still reconnect
on the next call: any later call whose probe reports not-alive starts
with the probe and issues a connect. -/
theorem run_native_query_exec_failure (env : QueryEnv) (db q m : String)
    (hp : check_status_b env.probe = true ∨ env.connectRes = Except.ok ())
    (hu : env.useDbRes = Except.ok ()) (he : env.execRes = Except.error m) :
    (run_native_query env db q).2 = Except.error (wrapError m) ∧
    (∃ pre suf, wrapError m = pre ++ m ++ suf) ∧
    (∀ envNext qNext, check_status_b envNext.probe = false →
      (run_native_query envNext db qNext).1.head? = some Event.probe ∧
      Event.connectCall ∈ (run_native_query envNext db qNext).1) := by
  have hb : (queryBody env db q).2 = Except.error (wrapError m) := by
    unfold queryBody
    rw [hu, he]
  refine ⟨?_, ⟨"Error: ", ". Please check and retry!", rfl⟩, ?_⟩
  · unfold run_native_query
    rcases hp with hp | hp
    · simp [hp, hb]
    · by_cases hcs : check_status_b env.probe <;> simp [hcs, hp, hb]
  · intro envNext qNext hn
    unfold run_native_query
    rw [hn]
    cases envNext.connectRes <;> simp

/-- An environment where the statement itself fails with a syntax error. -/
def envSyntaxErr : QueryEnv :=
  ⟨Except.ok true, Except.ok (), Except.ok (),
    Except.error "1064: You have an error in your SQL syntax",
    Except.ok [], Except.ok ()⟩

/-- Witness for C6: on `envSyntaxErr` the result is the wrapped engine
message, and the not-alive follow-up call `envDenied` probes and
reconnects. -/
theorem run_native_query_exec_failure_witness :
    (run_native_query envSyntaxErr "test" "SELEC 1").2
      = Except.error (wrapError "1064: You have an error in your SQL syntax") ∧
    Event.connectCall ∈ (run_native_query envDenied "test" "SELECT 1").1 := by
  have h := run_native_query_exec_failure envSyntaxErr "test" "SELEC 1"
    "1064: You have an error in your SQL syntax" (Or.inl rfl) rfl rfl
  exact ⟨h.1, (h.2.2 envDenied "SELECT 1" rfl).2⟩

/-- Claim C5: `select_query` builds exactly the SELECT text — targets
joined by commas, the last path segment of the from reference as table
name, a WHERE clause iff a predicate was supplied — and delegates that
string to `run_native_query`. -/
theorem select_query_builds (env : QueryEnv) (db : String) (targets : List String)
    (fromParts : List String) (h : fromParts ≠ []) (whereStmt : Option String) :
    select_query env db targets fromParts whereStmt
      = run_native_query env db
          (match whereStmt with
           | some w => "SELECT " ++ String.intercalate "," targets ++ " FROM "
               ++ fromParts.getLast h ++ " WHERE " ++ w
           | Option.none => "SELECT " ++ String.intercalate "," targets ++ " FROM "
               ++ fromParts.getLast h) := by
  have hg : fromParts.getLastD "" = fromParts.getLast h :=
    getLastD_eq_getLast fromParts h
  cases whereStmt <;> simp only [select_query, buildSelect, hg]

/-- Witness for C5: a concrete two-target select with a predicate maps to
the expected literal SQL text, and without a predicate no WHERE clause is
appended. -/
theorem select_query_builds_witness :
    select_query envDDL "test" ["a", "b"] ["db", "tbl"] (some "x=1")
      = run_native_query envDDL "test" "SELECT a,b FROM tbl WHERE x=1" ∧
    select_query envDDL "test" ["a", "b"] ["db", "tbl"] Option.none
      = run_native_query envDDL "test" "SELECT a,b FROM tbl" := by
  have h1 := select_query_builds envDDL "test" ["a", "b"] ["db", "tbl"]
    (by decide) (some "x=1")
  have h2 := select_query_builds envDDL "test" ["a", "b"] ["db", "tbl"]
    (by decide) Option.none
  exact ⟨h1.trans (by rfl), h2.trans (by rfl)⟩

/-- Claim C4: `join` selects on the left connector with the left side of
the from-expression, then on the right connector with the right side —
both with the same targets and shared predicate — materializes and merges
the two results, calls the left connector persistence (`select_into`)
with the merged frame iff a destination table is supplied, and returns
the merged frame. -/
theorem join_steps
    (leftSel rightSel : List String → List String → Option String → List PyRow)
    (stmt : JoinStmt) (into : Option String) (df : DataFrame)
    (hm : pandas_join (from_records (leftSel stmt.targets stmt.fromLeft stmt.whereStmt))
            (from_records (rightSel stmt.targets stmt.fromRight stmt.whereStmt))
            stmt.targets "_left" "_right" = Except.ok df) :
    join leftSel rightSel stmt into
      = ([JoinEvent.selectLeft stmt.targets stmt.fromLeft stmt.whereStmt,
          JoinEvent.selectRight stmt.targets stmt.fromRight stmt.whereStmt]
           ++ (match into with
               | some t => [JoinEvent.selectInto t df]
               | Option.none => []),
         Except.ok df) := by
  cases into <;> simp [join, hm]

/-- The left source rows for the C4 witness: one row with key zero. -/
def joinLeftRows : List PyRow := [[("k", Value.int 0), ("a", Value.int 1)]]

/-- The right source rows for the C4 witness: one row with key zero. -/
def joinRightRows : List PyRow := [[("k", Value.int 0), ("b", Value.int 2)]]

/-- The parsed join statement used by the C4 witness. -/
def joinStmtW : JoinStmt := ⟨["k"], ["db", "l"], ["db", "r"], some "k=0"⟩

/-- The merged frame the C4 witness produces. -/
def joinDfW : DataFrame :=
  ⟨["k_left", "a", "k_right", "b"],
    [[Value.int 0, Value.int 1, Value.int 0, Value.int 2]]⟩

/-- Witness for C4: with a destination table supplied, the trace is the
left select, the right select, then the persistence call with the merged
frame, which is also returned. -/
theorem join_steps_witness :
    join (fun _ _ _ => joinLeftRows) (fun _ _ _ => joinRightRows)
        joinStmtW (some "dest")
      = ([JoinEvent.selectLeft ["k"] ["db", "l"] (some "k=0"),
          JoinEvent.selectRight ["k"] ["db", "r"] (some "k=0"),
          JoinEvent.selectInto "dest" joinDfW],
         Except.ok joinDfW) := by
  have h := join_steps (fun _ _ _ => joinLeftRows) (fun _ _ _ => joinRightRows)
    joinStmtW (some "dest") joinDfW (by rfl)
  exact h.trans (by rfl)

/-- Claim C1 (the code at the failing input): two sources each holding
exactly one row that matches the other on the target column k (both have
k = 5) are not actually merged by `join`: pandas matches the left key
value against the right RangeIndex (label 0), so the single returned row
carries `nan` in every right-hand column — the right row value b = 2 is
dropped — while the colliding key column is suffixed on both sides. -/
theorem join_drops_matching_right_row :
    join (fun _ _ _ => [[("k", Value.int 5), ("a", Value.int 1)]])
        (fun _ _ _ => [[("k", Value.int 5), ("b", Value.int 2)]])
        ⟨["k"], ["db", "l"], ["db", "r"], Option.none⟩ Option.none
      = ([JoinEvent.selectLeft ["k"] ["db", "l"] Option.none,
          JoinEvent.selectRight ["k"] ["db", "r"] Option.none],
         Except.ok ⟨["k_left", "a", "k_right", "b"],
           [[Value.int 5, Value.int 1, Value.nan, Value.nan]]⟩) ∧
    lookupVal [("k", Value.int 5), ("b", Value.int 2)] "b" = Value.int 2 := by
  exact ⟨rfl, rfl⟩

end MySQLHandler
